import Mathlib

/-
Verification of the explicit-free-list memory allocator template
(src/allocator.cpp, src/memlib.cpp) against its specification.

The memory system (memlib.cpp) is fully implemented and is embedded
faithfully below.  In allocator.cpp, mm_realloc is the provided naive
implementation and is embedded faithfully; every other allocator function
(mm_init, mm_malloc, mm_free, extend_heap, coalesce, find_fit, place,
add_to_free_list, remove_from_free_list, mm_check) has a body that is only
TODO comments and hints: mm_init ends in an unconditional return -1,
mm_malloc and find_fit and extend_heap return nullptr, coalesce returns its
argument, mm_free and place and the free-list operations do nothing, and
mm_check returns 0.  Those stub bodies are what the embedding models.

Addresses are 64-bit machine addresses modelled as Nat; the heap is a byte
map.  The sbrk failure sentinel (void *)-1 is the all-ones address.
-/

namespace MemAlloc

/-- Word size in bytes (constexpr WSIZE in src/allocator.cpp). -/
def WSIZE : Nat := 4

/-- Double word size in bytes (constexpr DSIZE in src/allocator.cpp). -/
def DSIZE : Nat := 8

/-- Default heap extension size, 1 << 12 (constexpr CHUNKSIZE). -/
def CHUNKSIZE : Nat := 4096

/-- Minimum free block size on a 64-bit target: DSIZE + 2 * sizeof(void*). -/
def MIN_BLOCK_SIZE : Nat := DSIZE + 2 * 8

/-- Maximum heap size from src/memlib.cpp: MAX_HEAP = 8 * 1024 * 1024. -/
def MAX_HEAP : Nat := 8 * 1024 * 1024

/-- Number of distinct 64-bit pointer values. -/
def PTR_SPACE : Nat := 2 ^ 64

/-- The error sentinel (void *)-1 returned by mem_sbrk, read as an unsigned
64-bit address: the all-ones address. -/
def SBRK_FAIL : Nat := PTR_SPACE - 1

/-- State of the memory system of src/memlib.cpp: mem_heap (the base address
of the malloc-obtained arena) and mem_brk.  mem_max_addr is derived as
base + MAX_HEAP, exactly as mem_init sets it. -/
structure MemState where
  base : Nat
  brk : Nat
deriving DecidableEq

/-- mem_sbrk from src/memlib.cpp: if incr is negative or mem_brk + incr
would exceed mem_max_addr, print an error and return (void *)-1 without
touching the brk; otherwise advance mem_brk by incr and return the old brk. -/
def mem_sbrk (incr : Int) (s : MemState) : Nat × MemState :=
  if incr < 0 ∨ (s.brk : Int) + incr > (s.base : Int) + (MAX_HEAP : Int) then
    (SBRK_FAIL, s)
  else
    (s.brk, ⟨s.base, s.brk + incr.toNat⟩)

/-- mem_heap_lo from src/memlib.cpp: address of the first heap byte. -/
def mem_heap_lo (s : MemState) : Nat := s.base

/-- mem_heap_hi from src/memlib.cpp: address of the last heap byte,
mem_brk - 1. -/
def mem_heap_hi (s : MemState) : Nat := s.brk - 1

/-- mem_heapsize from src/memlib.cpp: mem_brk - mem_heap. -/
def mem_heapsize (s : MemState) : Nat := s.brk - s.base

/-- Heap contents: a byte value for every 64-bit address. -/
abbrev Heap := Nat → Nat

/-- The GET macro of src/allocator.cpp: read the 4-byte little-endian
unsigned word at address p. -/
def GET (h : Heap) (p : Nat) : Nat :=
  h p + 256 * h (p + 1) + 256 ^ 2 * h (p + 2) + 256 ^ 3 * h (p + 3)

/-- The PUT macro of src/allocator.cpp: store val as a 4-byte little-endian
unsigned word at address p. -/
def PUT (h : Heap) (p val : Nat) : Heap := fun a =>
  if a = p then val % 256
  else if a = p + 1 then val / 256 % 256
  else if a = p + 2 then val / 256 ^ 2 % 256
  else if a = p + 3 then val / 256 ^ 3 % 256
  else h a

/-- The GET_SIZE macro: GET(p) with the low three bits masked off. -/
def GET_SIZE (h : Heap) (p : Nat) : Nat := Nat.land (GET h p) 0xFFFFFFF8

/-- The GET_ALLOC macro: the low bit of GET(p). -/
def GET_ALLOC (h : Heap) (p : Nat) : Nat := Nat.land (GET h p) 1

/-- The HDRP macro: the header of the block with payload pointer bp sits
WSIZE bytes before the payload. -/
def HDRP (bp : Nat) : Nat := bp - WSIZE

/-- The FTRP macro: bp + GET_SIZE(HDRP(bp)) - DSIZE. -/
def FTRP (h : Heap) (bp : Nat) : Nat := bp + GET_SIZE h (HDRP bp) - DSIZE

/-- The NEXT_BLKP macro: bp + GET_SIZE(HDRP(bp)). -/
def NEXT_BLKP (h : Heap) (bp : Nat) : Nat := bp + GET_SIZE h (HDRP bp)

/-- The PREV_BLKP macro: bp - GET_SIZE(bp - DSIZE). -/
def PREV_BLKP (h : Heap) (bp : Nat) : Nat := bp - GET_SIZE h (bp - DSIZE)

/-- Allocator state: the memory system state, the heap bytes, and the two
globals heap_listp and free_listp of src/allocator.cpp (none models the
nullptr value both are initialised to). -/
structure AllocState where
  mem : MemState
  heap : Heap
  heap_listp : Option Nat
  free_listp : Option Nat

/-- mm_init as written in src/allocator.cpp: every step of the documented
algorithm is left as a TODO comment and the body executes the single
statement return -1, touching no state at all. -/
def mm_init (s : AllocState) : Int × AllocState := (-1, s)

/-- mm_malloc as written in src/allocator.cpp: the body only declares the
locals asize, extendsize and bp and then returns nullptr for every request,
touching no state. -/
def mm_malloc (size : Nat) (s : AllocState) : Option Nat × AllocState :=
  (none, s)

/-- mm_free as written in src/allocator.cpp: the body is empty (every step
is a TODO comment), so the call is a no-op. -/
def mm_free (ptr : Option Nat) (s : AllocState) : AllocState := s

/-- extend_heap as written in src/allocator.cpp: every step is a TODO
comment and the body returns nullptr, touching no state and never calling
mem_sbrk. -/
def extend_heap (words : Nat) (s : AllocState) : Option Nat × AllocState :=
  (none, s)

/-- coalesce as written in src/allocator.cpp: every case is a TODO comment
and the body returns bp unchanged, touching no state. -/
def coalesce (bp : Nat) (s : AllocState) : Nat × AllocState := (bp, s)

/-- find_fit as written in src/allocator.cpp: the free-list walk is a TODO
comment and the body returns nullptr for every request and every state. -/
def find_fit (asize : Nat) (s : AllocState) : Option Nat := none

/-- place as written in src/allocator.cpp: the body is empty (TODOs only). -/
def place (bp asize : Nat) (s : AllocState) : AllocState := s

/-- add_to_free_list as written in src/allocator.cpp: the body is empty. -/
def add_to_free_list (bp : Nat) (s : AllocState) : AllocState := s

/-- remove_from_free_list as written in src/allocator.cpp: the body is
empty. -/
def remove_from_free_list (bp : Nat) (s : AllocState) : AllocState := s

/-- mm_check as written in src/allocator.cpp: the consistency checks are a
TODO comment and the body returns 0 for every state. -/
def mm_check (s : AllocState) : Int := 0

/-- Byte-wise memcpy over the heap: copy n bytes from src to dst. -/
def memcpy : Heap → Nat → Nat → Nat → Heap
  | h, _, _, 0 => h
  | h, dst, src, n + 1 =>
      memcpy (fun a => if a = dst then h src else h a) (dst + 1) (src + 1) n

/-- mm_realloc from src/allocator.cpp, the provided naive implementation:
a nullptr argument dispatches to mm_malloc; size 0 frees the block and
returns nullptr; otherwise it allocates, and on success copies
min(size, GET_SIZE(HDRP(ptr)) - DSIZE) bytes (a size_t subtraction, so
taken mod 2^64), frees the old block and returns the new one. -/
def mm_realloc (ptr : Option Nat) (size : Nat) (s : AllocState) :
    Option Nat × AllocState :=
  match ptr with
  | none => mm_malloc size s
  | some p =>
    if size = 0 then (none, mm_free (some p) s)
    else
      match mm_malloc size s with
      | (none, s1) => (none, s1)
      | (some q, s1) =>
        let copy0 := (GET_SIZE s1.heap (HDRP p) + PTR_SPACE - DSIZE) % PTR_SPACE
        let copy := if size < copy0 then size else copy0
        let s2 : AllocState := { s1 with heap := memcpy s1.heap q p copy }
        (some q, mm_free (some p) s2)

/-- The all-zero heap. -/
def zeroHeap : Heap := fun _ => 0

/-- A fresh allocator state over a fresh arena based at address 0:
mem_init has just run (brk = base) and mm_init has not been called, so both
allocator globals are still nullptr. -/
def sFresh : AllocState :=
  { mem := ⟨0, 0⟩, heap := zeroHeap, heap_listp := none, free_listp := none }

/-- Heap bytes of a small well-formed heap over a base-0 arena: pad at 0,
prologue header and footer (8|1) at 4 and 8, one ALLOCATED 16-byte block
with header (16|1) at 12, payload at 16, footer (16|1) at 24, and the
epilogue header (0|1) at 28. -/
def hAlloc : Heap :=
  PUT (PUT (PUT (PUT (PUT zeroHeap 4 9) 8 9) 12 17) 24 17) 28 1

/-- Allocator state holding one allocated 16-byte block at payload 16; the
free list is empty and the brk sits just past the epilogue. -/
def sAlloc : AllocState :=
  { mem := ⟨0, 32⟩, heap := hAlloc, heap_listp := some 8, free_listp := none }

/-- Heap bytes with one FREE 24-byte block at payload 16: header (24|0) at
12, null next and prev link fields in the payload, footer (24|0) at 32,
epilogue header (0|1) at 36. -/
def hFree : Heap :=
  PUT (PUT (PUT (PUT (PUT zeroHeap 4 9) 8 9) 12 24) 32 24) 36 1

/-- Allocator state whose explicit free list holds exactly the free
24-byte block at payload 16. -/
def sFree : AllocState :=
  { mem := ⟨0, 40⟩, heap := hFree, heap_listp := some 8, free_listp := some 16 }

/-- Corrupted heap bytes: the block at payload 16 has header (16|1) at 12
but footer (24|1) at 24, violating invariant 1 (header equals footer). -/
def hCorrupt : Heap :=
  PUT (PUT (PUT (PUT (PUT zeroHeap 4 9) 8 9) 12 17) 24 25) 28 1

/-- Allocator state violating invariant 1 of the data model. -/
def sCorrupt : AllocState :=
  { mem := ⟨0, 32⟩, heap := hCorrupt, heap_listp := some 8, free_listp := none }

/-- Claim C1: init() should perform the initial 16-byte arena extension,
write the pad, prologue and epilogue words, call extend_heap(CHUNKSIZE/4),
and return 0 exactly when both arena extensions succeed.  The template body
of mm_init returns -1 unconditionally and performs neither extension (and
the template extend_heap likewise returns nullptr without calling
mem_sbrk), even on a fresh arena where both mem_sbrk calls succeed. -/
theorem c1_init_returns_error_despite_room :
    mm_init sFresh = (-1, sFresh)
    ∧ extend_heap (CHUNKSIZE / WSIZE) sFresh = (none, sFresh)
    ∧ (mem_sbrk ((4 * WSIZE : Nat) : Int) sFresh.mem).fst ≠ SBRK_FAIL
    ∧ (mem_sbrk ((CHUNKSIZE : Nat) : Int)
        (mem_sbrk ((4 * WSIZE : Nat) : Int) sFresh.mem).snd).fst ≠ SBRK_FAIL := by
  refine ⟨rfl, rfl, ?_, ?_⟩ <;> decide

/-- Claim C2: after a successful init on a fresh arena, malloc(8) should
return a non-null 8-byte-aligned payload.  On the template, mm_init never
succeeds (it returns -1 on the fresh arena) and mm_malloc(8) returns
nullptr anyway, so checkpoint test 1 fails. -/
theorem c2_malloc8_after_init_fails :
    mm_init sFresh = (-1, sFresh) ∧ mm_malloc 8 sFresh = (none, sFresh) :=
  ⟨rfl, rfl⟩

/-- Claim C3: for every allocator state, malloc(0) returns null and
performs no arena mutation.  The template mm_malloc returns nullptr for
every size without touching the state, so in particular for size 0. -/
theorem c3_malloc_zero_null_no_mutation (s : AllocState) :
    mm_malloc 0 s = (none, s) := rfl

/-- Claim C4: find_fit(asize) should return the first block on the
free-list walk whose size is at least asize, and null only when no listed
block fits.  In sFree the free-list head block at payload 16 is free with
size 24 >= 16, yet the template find_fit returns nullptr. -/
theorem c4_find_fit_misses_fitting_block :
    sFree.free_listp = some 16
    ∧ GET_ALLOC sFree.heap (HDRP 16) = 0
    ∧ GET_SIZE sFree.heap (HDRP 16) ≥ 16
    ∧ find_fit 16 sFree = none := by
  refine ⟨rfl, ?_, ?_, rfl⟩ <;> decide

/-- Claim C5: free(p) should rewrite the header and footer of the block to
(s | 0) and then invoke coalesce(p).  The template mm_free has an empty
body: on the allocated block at payload 16 it leaves the state unchanged,
the alloc bit stays 1, and the template coalesce is itself an identity. -/
theorem c5_free_is_noop :
    GET_ALLOC sAlloc.heap (HDRP 16) = 1
    ∧ mm_free (some 16) sAlloc = sAlloc
    ∧ GET_ALLOC (mm_free (some 16) sAlloc).heap (HDRP 16) = 1
    ∧ coalesce 16 sAlloc = (16, sAlloc) := by
  refine ⟨?_, rfl, ?_, rfl⟩ <;> decide

/-- Claim C6: when realloc(p, n) returns non-null, the leading bytes are
copied and p is freed.  On the template, mm_malloc always returns nullptr,
so mm_realloc returns nullptr for the allocated block at 16 even though the
arena has ample room (brk + CHUNKSIZE is far below the 8 MiB cap), and
mm_free is a no-op so the old block would never actually be freed. -/
theorem c6_realloc_never_succeeds_and_never_frees :
    mm_realloc (some 16) 8 sAlloc = (none, sAlloc)
    ∧ GET_ALLOC sAlloc.heap (HDRP 16) = 1
    ∧ sAlloc.mem.brk + CHUNKSIZE ≤ sAlloc.mem.base + MAX_HEAP
    ∧ mm_free (some 16) sAlloc = sAlloc := by
  refine ⟨rfl, ?_, ?_, rfl⟩ <;> decide

/-- Claim C7: realloc(null, n) equals malloc(n), both in return value and
in effect on the allocator state.  The provided mm_realloc literally
executes return mm_malloc(size) when its pointer argument is nullptr. -/
theorem c7_realloc_null_is_malloc (n : Nat) (s : AllocState) :
    mm_realloc none n s = mm_malloc n s := rfl

/-- Claim C8: check() should return nonzero on a heap violating one of the
documented invariants.  The state sCorrupt violates invariant 1 (the block
at payload 16 has header word 17 but footer word 25), yet the template
mm_check returns 0. -/
theorem c8_check_accepts_corrupt_heap :
    GET sCorrupt.heap (HDRP 16) ≠ GET sCorrupt.heap (FTRP sCorrupt.heap 16)
    ∧ mm_check sCorrupt = 0 :=
  ⟨by decide, rfl⟩

/-- Claim C9: mem_sbrk(n) advances the brk by n and returns the old brk
exactly when n >= 0 and the grown heap stays within the 8 MiB cap, and
returns the sentinel for every negative n and for every n that would push
the brk past mem_max_addr.  Hypotheses: the brk lies within the arena and
the whole arena sits strictly below the all-ones sentinel address (both
guaranteed for a real malloc-obtained arena). -/
theorem c9_mem_sbrk_spec (s : MemState) (n : Int)
    (hbb : s.brk ≤ s.base + MAX_HEAP)
    (hfit : s.base + MAX_HEAP < PTR_SPACE - 1) :
    (mem_sbrk n s = (s.brk, ⟨s.base, s.brk + n.toNat⟩)
      ↔ 0 ≤ n ∧ (s.brk : Int) + n ≤ (s.base : Int) + (MAX_HEAP : Int))
    ∧ ((n < 0 ∨ (s.brk : Int) + n > (s.base : Int) + (MAX_HEAP : Int)) →
        mem_sbrk n s = (SBRK_FAIL, s)) := by
  have hfail : (n < 0 ∨ (s.brk : Int) + n > (s.base : Int) + (MAX_HEAP : Int)) →
      mem_sbrk n s = (SBRK_FAIL, s) := by
    intro hP
    unfold mem_sbrk
    rw [if_pos hP]
  have hok : ¬(n < 0 ∨ (s.brk : Int) + n > (s.base : Int) + (MAX_HEAP : Int)) →
      mem_sbrk n s = (s.brk, ⟨s.base, s.brk + n.toNat⟩) := by
    intro hP
    unfold mem_sbrk
    rw [if_neg hP]
  refine ⟨⟨?_, ?_⟩, hfail⟩
  · intro hres
    by_cases hP : n < 0 ∨ (s.brk : Int) + n > (s.base : Int) + (MAX_HEAP : Int)
    · exfalso
      have h1 := hfail hP
      rw [h1] at hres
      have h2 : SBRK_FAIL = s.brk := congrArg Prod.fst hres
      have h4 : SBRK_FAIL = 18446744073709551615 := by
        norm_num [SBRK_FAIL, PTR_SPACE]
      have h5 : PTR_SPACE - 1 = 18446744073709551615 := by norm_num [PTR_SPACE]
      rw [h5] at hfit
      omega
    · push_neg at hP
      exact hP
  · intro hcond
    apply hok
    push_neg
    exact hcond

/-- Witness for claim C9: on the arena based at 4096 with brk 4096, a
16-byte extension succeeds, returning the old brk 4096 and advancing the
brk to 4112. -/
theorem c9_mem_sbrk_spec_witness :
    mem_sbrk 16 ⟨4096, 4096⟩ = (4096, ⟨4096, 4112⟩) :=
  ((c9_mem_sbrk_spec ⟨4096, 4096⟩ 16 (by decide) (by decide)).1).mpr
    ⟨by decide, by decide⟩

/-- Claim C10: when mem_sbrk fails (negative increment, or growth past the
8 MiB arena) the brk is left unchanged — mem_heap_hi and mem_heapsize give
the same values as before the call — and the sentinel is exactly the
all-ones address (void *)-1, which is never a valid arena address. -/
theorem c10_mem_sbrk_fail_preserves (s : MemState) (n : Int)
    (hfit : s.base + MAX_HEAP < PTR_SPACE - 1)
    (hfail : n < 0 ∨ (s.brk : Int) + n > (s.base : Int) + (MAX_HEAP : Int)) :
    mem_sbrk n s = (SBRK_FAIL, s)
    ∧ mem_heap_hi (mem_sbrk n s).snd = mem_heap_hi s
    ∧ mem_heapsize (mem_sbrk n s).snd = mem_heapsize s
    ∧ SBRK_FAIL = PTR_SPACE - 1
    ∧ (∀ a, s.base ≤ a → a < s.base + MAX_HEAP → a ≠ SBRK_FAIL) := by
  have h1 : mem_sbrk n s = (SBRK_FAIL, s) := by
    unfold mem_sbrk
    rw [if_pos hfail]
  refine ⟨h1, by rw [h1], by rw [h1], rfl, ?_⟩
  intro a ha1 ha2 hEq
  have h4 : SBRK_FAIL = 18446744073709551615 := by
    norm_num [SBRK_FAIL, PTR_SPACE]
  have h5 : PTR_SPACE - 1 = 18446744073709551615 := by norm_num [PTR_SPACE]
  rw [h5] at hfit
  omega

/-- Witness for claim C10: a negative increment on the arena based at 4096
fails with the sentinel and leaves the state unchanged. -/
theorem c10_mem_sbrk_fail_preserves_witness :
    mem_sbrk (-1) ⟨4096, 4096⟩ = (SBRK_FAIL, ⟨4096, 4096⟩) :=
  (c10_mem_sbrk_fail_preserves ⟨4096, 4096⟩ (-1) (by decide)
    (Or.inl (by decide))).1

end MemAlloc
